import Mathlib

/-!
Verification of the record-transformer library (src/src/lib.rs and
src/src/records.rs) against its natural-language specification.

The Rust `u32` fields are embedded as `Nat` with explicit reduction
modulo 2^32 wherever the source performs an addition that may overflow
(this matches release-mode wrapping semantics).  A separate checked
(`Option`-returning) embedding models debug/checked overflow semantics
for the failure-mode claims.  In-place Rust functions taking
`&mut Record` are embedded as functions from the pre-state to the
post-state.
-/

def U32_MOD : Nat := 2 ^ 32

/-- The three-field record from src/src/lib.rs: two u32 counters and a flag. -/
structure Record where
  a : Nat
  b : Nat
  c : Bool
deriving DecidableEq, Repr

/-- Well-formedness: both numeric fields are representable as u32. -/
def Record.wf (r : Record) : Prop := r.a < U32_MOD ∧ r.b < U32_MOD

instance (r : Record) : Decidable r.wf := by
  unfold Record.wf; infer_instance

-- Functional/immutable style helpers (src/src/lib.rs lines 10-30).

def get_toggled_record (r : Record) : Record :=
  { r with c := !r.c }

def get_incremented_record (r : Record) : Record :=
  { r with a := (r.a + 1) % U32_MOD }

def get_accumulated_record (r : Record) : Record :=
  { r with a := (r.a + r.b) % U32_MOD, b := r.a }

-- Mutate-in-place style helpers (src/src/lib.rs lines 34-45), embedded as
-- pre-state to post-state functions.  Note that mut_accumulated_record
-- assigns b from the already-updated a, as the source does.

def mut_toggled_record (r : Record) : Record :=
  { r with c := !r.c }

def mut_incremented_record (r : Record) : Record :=
  { r with a := (r.a + 1) % U32_MOD }

def mut_accumulated_record (r : Record) : Record :=
  let r1 := { r with a := (r.a + r.b) % U32_MOD }
  { r1 with b := r1.a }

/-- The in-place toggle from src/src/records.rs lines 17-19. -/
def toggle_record_flag (r : Record) : Record :=
  { r with c := !r.c }

-- The seven exported update functions (src/src/lib.rs lines 49-104).

def update_record_with_refs (r : Record) : Record :=
  mut_accumulated_record (mut_incremented_record (mut_toggled_record r))

def update_record_with_ptrs (r : Record) : Record :=
  get_accumulated_record (get_incremented_record (get_toggled_record r))

def update_record_with_minimal_vars (r : Record) : Record :=
  get_accumulated_record (get_incremented_record (get_toggled_record r))

def update_record_with_shadowed_vars (r : Record) : Record :=
  let tmp := r
  let tmp := get_toggled_record tmp
  let tmp := get_incremented_record tmp
  let tmp := get_accumulated_record tmp
  tmp

def update_record_with_mut_tmp_var (r : Record) : Record :=
  let tmp := r
  let tmp := get_toggled_record tmp
  let tmp := get_incremented_record tmp
  let tmp := get_accumulated_record tmp
  tmp

def update_record_no_refs (r : Record) : Record :=
  let record := get_toggled_record r
  let record := get_incremented_record record
  let record := get_accumulated_record record
  record

def update_record_mut (r : Record) : Record :=
  let record := r
  let record := mut_toggled_record record
  let record := mut_incremented_record record
  let record := mut_accumulated_record record
  record

-- Checked (debug-mode) embedding: each u32 addition fails on overflow.

def checked_add (x y : Nat) : Option Nat :=
  if x + y < U32_MOD then some (x + y) else none

def get_incremented_record? (r : Record) : Option Record :=
  (checked_add r.a 1).map fun a1 => { r with a := a1 }

def get_accumulated_record? (r : Record) : Option Record :=
  (checked_add r.a r.b).map fun a1 => { r with a := a1, b := r.a }

def update_record_no_refs? (r : Record) : Option Record := do
  let r1 := get_toggled_record r
  let r2 ← get_incremented_record? r1
  get_accumulated_record? r2

-- Shared arithmetic helper: under the no-overflow hypothesis the two mod
-- reductions in the a-field computation are the identity.

theorem accum_a_eq (r : Record) (h : r.a + 1 + r.b < U32_MOD) :
    ((r.a + 1) % U32_MOD + r.b) % U32_MOD = r.a + 1 + r.b := by
  have h1 : r.a + 1 < U32_MOD := by omega
  rw [Nat.mod_eq_of_lt h1, Nat.mod_eq_of_lt h]

/-- Claim C1: the seven exported update functions are claimed to agree on every
input, but on the record (5, 3, true) the get-helper based variants produce
(9, 6, false) while the mut-helper based variants produce (9, 9, false):
mut_accumulated_record assigns b from the already-updated a. -/
theorem C1_variants_diverge :
    update_record_no_refs ⟨5, 3, true⟩ = ⟨9, 6, false⟩ ∧
    update_record_with_refs ⟨5, 3, true⟩ = ⟨9, 9, false⟩ ∧
    update_record_with_refs ⟨5, 3, true⟩ ≠ update_record_no_refs ⟨5, 3, true⟩ := by
  decide

/-- Claim C2: the output b field is claimed to equal the input a plus one for
each exported update function; this holds for update_record_no_refs on
(5, 3, true), but update_record_mut yields b = 9 rather than 6 there. -/
theorem C2_b_field_diverges :
    (update_record_no_refs ⟨5, 3, true⟩).b = 5 + 1 ∧
    (update_record_mut ⟨5, 3, true⟩).b = 9 := by
  decide

/-- Claim C3: get_accumulated_record and mut_accumulated_record are claimed
identical in effect, but on (5, 3, true) the former yields b = 5 (the old a)
while the latter yields b = 8 (the updated a). -/
theorem C3_helpers_differ :
    get_accumulated_record ⟨5, 3, true⟩ = ⟨8, 5, true⟩ ∧
    mut_accumulated_record ⟨5, 3, true⟩ = ⟨8, 8, true⟩ := by
  decide

/-- Claim C4: for every record whose transform does not overflow 32 bits, the
output a field of every one of the seven update functions equals the input a
plus one plus the input b. -/
theorem C4_a_field (r : Record) (h : r.a + 1 + r.b < U32_MOD) :
    (update_record_with_refs r).a = r.a + 1 + r.b ∧
    (update_record_with_ptrs r).a = r.a + 1 + r.b ∧
    (update_record_with_minimal_vars r).a = r.a + 1 + r.b ∧
    (update_record_with_shadowed_vars r).a = r.a + 1 + r.b ∧
    (update_record_with_mut_tmp_var r).a = r.a + 1 + r.b ∧
    (update_record_no_refs r).a = r.a + 1 + r.b ∧
    (update_record_mut r).a = r.a + 1 + r.b := by
  have key := accum_a_eq r h
  exact ⟨key, key, key, key, key, key, key⟩

/-- Witness for C4 at the concrete record (5, 3, true). -/
theorem C4_a_field_witness :
    ((5 : Nat) + 1 + 3 < U32_MOD) ∧
    ((update_record_with_refs ⟨5, 3, true⟩).a = 9 ∧
     (update_record_with_ptrs ⟨5, 3, true⟩).a = 9 ∧
     (update_record_with_minimal_vars ⟨5, 3, true⟩).a = 9 ∧
     (update_record_with_shadowed_vars ⟨5, 3, true⟩).a = 9 ∧
     (update_record_with_mut_tmp_var ⟨5, 3, true⟩).a = 9 ∧
     (update_record_no_refs ⟨5, 3, true⟩).a = 9 ∧
     (update_record_mut ⟨5, 3, true⟩).a = 9) :=
  ⟨by decide, C4_a_field ⟨5, 3, true⟩ (by decide)⟩

/-- Claim C5: for every record whose transform does not overflow 32 bits, the
output c field of every one of the seven update functions is the logical
negation of the input c field. -/
theorem C5_c_field (r : Record) (h : r.a + 1 + r.b < U32_MOD) :
    (update_record_with_refs r).c = !r.c ∧
    (update_record_with_ptrs r).c = !r.c ∧
    (update_record_with_minimal_vars r).c = !r.c ∧
    (update_record_with_shadowed_vars r).c = !r.c ∧
    (update_record_with_mut_tmp_var r).c = !r.c ∧
    (update_record_no_refs r).c = !r.c ∧
    (update_record_mut r).c = !r.c :=
  ⟨rfl, rfl, rfl, rfl, rfl, rfl, rfl⟩

/-- Witness for C5 at the concrete record (5, 3, true). -/
theorem C5_c_field_witness :
    ((5 : Nat) + 1 + 3 < U32_MOD) ∧
    ((update_record_with_refs ⟨5, 3, true⟩).c = !true ∧
     (update_record_with_ptrs ⟨5, 3, true⟩).c = !true ∧
     (update_record_with_minimal_vars ⟨5, 3, true⟩).c = !true ∧
     (update_record_with_shadowed_vars ⟨5, 3, true⟩).c = !true ∧
     (update_record_with_mut_tmp_var ⟨5, 3, true⟩).c = !true ∧
     (update_record_no_refs ⟨5, 3, true⟩).c = !true ∧
     (update_record_mut ⟨5, 3, true⟩).c = !true) :=
  ⟨by decide, C5_c_field ⟨5, 3, true⟩ (by decide)⟩

/-- Claim C6 counterexample: the increment step itself can fail under checked
semantics: on the well-formed record (4294967295, 0, false) the increment
inside the transform overflows, so overflow during the final addition is not
the only possible failure point. -/
theorem C6_counterexample :
    Record.wf ⟨4294967295, 0, false⟩ ∧
    get_incremented_record? (get_toggled_record ⟨4294967295, 0, false⟩) = none ∧
    update_record_no_refs? ⟨4294967295, 0, false⟩ = none := by
  decide

/-- Claim C6 (amended): the transform can fail only by 32-bit overflow, and it
succeeds exactly on the well-formed records with a + 1 + b below 2^32; the
increment step fails precisely when a is the maximum u32 value, and on such
records the final addition would overflow as well. -/
theorem C6_overflow_only (r : Record) (hwf : r.wf) :
    ((update_record_no_refs? r).isSome ↔ r.a + 1 + r.b < U32_MOD) ∧
    (get_incremented_record? (get_toggled_record r) = none ↔ r.a = U32_MOD - 1) ∧
    (r.a = U32_MOD - 1 → ¬ r.a + 1 + r.b < U32_MOD) := by
  obtain ⟨ha, hb⟩ := hwf
  refine ⟨?_, ?_, ?_⟩
  · by_cases h1 : r.a + 1 < U32_MOD
    · by_cases h2 : r.a + 1 + r.b < U32_MOD
      · simp [update_record_no_refs?, get_incremented_record?, get_accumulated_record?,
          checked_add, get_toggled_record, h1, h2]
      · simp [update_record_no_refs?, get_incremented_record?, get_accumulated_record?,
          checked_add, get_toggled_record, h1, h2]
    · have h2 : ¬ r.a + 1 + r.b < U32_MOD := by omega
      simp [update_record_no_refs?, get_incremented_record?, get_accumulated_record?,
        checked_add, get_toggled_record, h1, h2]
  · by_cases h1 : r.a + 1 < U32_MOD
    · have hne : r.a ≠ U32_MOD - 1 := by omega
      simp [get_incremented_record?, checked_add, get_toggled_record, h1, hne]
    · have heq : r.a = U32_MOD - 1 := by omega
      simp [get_incremented_record?, checked_add, get_toggled_record, h1, heq]
      omega
  · intro heq
    omega

/-- Witness for the amended C6 at the concrete record (5, 3, true). -/
theorem C6_overflow_only_witness :
    Record.wf ⟨5, 3, true⟩ ∧
    (((update_record_no_refs? ⟨5, 3, true⟩).isSome ↔ (5 : Nat) + 1 + 3 < U32_MOD) ∧
     (get_incremented_record? (get_toggled_record ⟨5, 3, true⟩) = none ↔
       (5 : Nat) = U32_MOD - 1) ∧
     ((5 : Nat) = U32_MOD - 1 → ¬ (5 : Nat) + 1 + 3 < U32_MOD)) :=
  ⟨by decide, C6_overflow_only ⟨5, 3, true⟩ (by decide)⟩

/-- Claim C7: when neither application overflows, applying the transform twice
restores the flag c (toggle is involutive), while some record exists whose
numeric fields are not restored, so the transform is not idempotent overall. -/
theorem C7_double_application (r : Record)
    (h1 : r.a + 1 + r.b < U32_MOD)
    (h2 : (update_record_no_refs r).a + 1 + (update_record_no_refs r).b < U32_MOD) :
    (update_record_no_refs (update_record_no_refs r)).c = r.c ∧
    ∃ s : Record, s.wf ∧ s.a + 1 + s.b < U32_MOD ∧
      (update_record_no_refs s).a + 1 + (update_record_no_refs s).b < U32_MOD ∧
      ((update_record_no_refs (update_record_no_refs s)).a ≠ s.a ∨
       (update_record_no_refs (update_record_no_refs s)).b ≠ s.b) := by
  refine ⟨?_, ⟨0, 0, false⟩, by decide, by decide, by decide, by decide⟩
  exact Bool.not_not r.c

/-- Witness for C7 at the concrete record (5, 3, true). -/
theorem C7_double_application_witness :
    ((5 : Nat) + 1 + 3 < U32_MOD) ∧
    ((9 : Nat) + 1 + 6 < U32_MOD) ∧
    ((update_record_no_refs (update_record_no_refs ⟨5, 3, true⟩)).c = true ∧
     ∃ s : Record, s.wf ∧ s.a + 1 + s.b < U32_MOD ∧
       (update_record_no_refs s).a + 1 + (update_record_no_refs s).b < U32_MOD ∧
       ((update_record_no_refs (update_record_no_refs s)).a ≠ s.a ∨
        (update_record_no_refs (update_record_no_refs s)).b ≠ s.b)) :=
  ⟨by decide, by decide, C7_double_application ⟨5, 3, true⟩ (by decide) (by decide)⟩

/-- Claim C8: on the record (5, 3, true) the spec fixes the output (9, 6, false);
the five get-helper based variants produce it, but update_record_with_refs and
update_record_mut produce (9, 9, false) instead. -/
theorem C8_scenario2 :
    update_record_no_refs ⟨5, 3, true⟩ = ⟨9, 6, false⟩ ∧
    update_record_with_ptrs ⟨5, 3, true⟩ = ⟨9, 6, false⟩ ∧
    update_record_with_minimal_vars ⟨5, 3, true⟩ = ⟨9, 6, false⟩ ∧
    update_record_with_shadowed_vars ⟨5, 3, true⟩ = ⟨9, 6, false⟩ ∧
    update_record_with_mut_tmp_var ⟨5, 3, true⟩ = ⟨9, 6, false⟩ ∧
    update_record_with_refs ⟨5, 3, true⟩ = ⟨9, 9, false⟩ ∧
    update_record_mut ⟨5, 3, true⟩ = ⟨9, 9, false⟩ := by
  decide

/-- Claim C9: for every non-overflowing record, after update_record_with_refs or
update_record_mut the output satisfies b = a, because mut_accumulated_record
assigns b from the already-updated a. -/
theorem C9_b_eq_a (r : Record) (h : r.a + 1 + r.b < U32_MOD) :
    (update_record_with_refs r).b = (update_record_with_refs r).a ∧
    (update_record_mut r).b = (update_record_mut r).a :=
  ⟨rfl, rfl⟩

/-- Witness for C9 at the concrete record (5, 3, true). -/
theorem C9_b_eq_a_witness :
    ((5 : Nat) + 1 + 3 < U32_MOD) ∧
    ((update_record_with_refs ⟨5, 3, true⟩).b = (update_record_with_refs ⟨5, 3, true⟩).a ∧
     (update_record_mut ⟨5, 3, true⟩).b = (update_record_mut ⟨5, 3, true⟩).a) :=
  ⟨by decide, C9_b_eq_a ⟨5, 3, true⟩ (by decide)⟩

/-- Claim C10: the toggle step is a pure frame on the numeric fields: all three
toggle helpers leave a and b unchanged and only negate c. -/
theorem C10_toggle_frame (r : Record) :
    (get_toggled_record r).a = r.a ∧ (get_toggled_record r).b = r.b ∧
    (get_toggled_record r).c = !r.c ∧
    (mut_toggled_record r).a = r.a ∧ (mut_toggled_record r).b = r.b ∧
    (mut_toggled_record r).c = !r.c ∧
    (toggle_record_flag r).a = r.a ∧ (toggle_record_flag r).b = r.b ∧
    (toggle_record_flag r).c = !r.c :=
  ⟨rfl, rfl, rfl, rfl, rfl, rfl, rfl, rfl, rfl⟩
